import Mathlib

/-!
Shallow embedding of the AI-Interview hiring platform (src/app.py): the
application lifecycle endpoints, the model-gateway response handling, the
résumé text extraction and the final-report assembly, together with proofs
about the behaviour the specification describes.

External collaborators (the Gemini client, Flask-Mail, PyPDF2/docx, the
PDF renderer, json.loads) are modelled as oracles passed in as arguments:
the embedding records exactly how src/app.py reacts to each possible
collaborator outcome.
-/

/-- A Python/JSON value as produced by json.loads and consumed by the
endpoints (jsonify bodies, parsed model responses). -/
inductive PyJson where
  | null : PyJson
  | bool : Bool → PyJson
  | num : Int → PyJson
  | str : String → PyJson
  | arr : List PyJson → PyJson
  | obj : List (String × PyJson) → PyJson

namespace PyJson

/-- Python dict .get lookup on a parsed JSON object (first matching key). -/
def getField (fields : List (String × PyJson)) (key : String) : Option PyJson :=
  match fields with
  | [] => none
  | (k, v) :: rest => if k = key then some v else getField rest key

/-- Python truthiness of a JSON value (used by `if result.get('shortlisted'):`). -/
def pyTruthy : PyJson → Bool
  | .null => false
  | .bool b => b
  | .num n => n != 0
  | .str s => s != ""
  | .arr l => !l.isEmpty
  | .obj f => !f.isEmpty

end PyJson

/-- Body `{"error": msg}` as built by `jsonify({'error': ...})`. -/
def errBody (msg : String) : PyJson := .obj [("error", .str msg)]

/-- Body `{"message": msg}` as built by `jsonify({'message': ...})`. -/
def msgBody (msg : String) : PyJson := .obj [("message", .str msg)]

/-- A row of the candidates table. -/
structure Candidate where
  id : Nat
  name : String
  email : String
  deriving DecidableEq

/-- A row of the jobs table. -/
structure Job where
  id : Nat
  adminId : Nat
  title : String
  description : String
  deriving DecidableEq

/-- One recorded interview entry (question/answer/score/feedback), the shape
the client posts back in `interview_results`. -/
structure REntry where
  question : String
  answer : String
  score : Int
  feedback : String
  deriving DecidableEq

/-- A row of the applications table.  `interviewResults` holds the list whose
JSON dump the TEXT column stores; `shortlistReason` holds the JSON value the
gateway returned for the reason (a TEXT column in the store). -/
structure Application where
  id : Nat
  candidateId : Nat
  jobId : Nat
  resumeText : String
  status : String
  shortlistReason : Option PyJson
  reportPath : Option String
  interviewResults : Option (List REntry)

/-- The persistent store (admins are only consulted through the session). -/
structure DB where
  candidates : List Candidate
  jobs : List Job
  applications : List Application

/-- The Flask session cookie contents used by the modelled endpoints. -/
structure Session where
  userType : Option String
  adminId : Option Nat
  companyName : Option String
  candidateId : Option Nat
  applicationId : Option Nat
  jobRequirements : Option String
  deriving DecidableEq

/-- `session.clear()`. -/
def Session.cleared : Session := ⟨none, none, none, none, none, none⟩

/-- SELECT ... FROM applications WHERE id = ? (primary-key lookup). -/
def findApp (l : List Application) (i : Nat) : Option Application :=
  match l with
  | [] => none
  | a :: t => if a.id = i then some a else findApp t i

/-- SELECT ... FROM candidates WHERE id = ?. -/
def findCand (l : List Candidate) (i : Nat) : Option Candidate :=
  match l with
  | [] => none
  | c :: t => if c.id = i then some c else findCand t i

/-- SELECT ... FROM jobs WHERE id = ?. -/
def findJob (l : List Job) (i : Nat) : Option Job :=
  match l with
  | [] => none
  | j :: t => if j.id = i then some j else findJob t i

/-- The three-way JOIN used by send_invite and update_status:
applications JOIN candidates JOIN jobs, keyed by the application id.
fetchone() yields a row exactly when all three rows exist. -/
def joinAppCandJob (db : DB) (i : Nat) : Option (Application × Candidate × Job) := do
  let a ← findApp db.applications i
  let c ← findCand db.candidates a.candidateId
  let j ← findJob db.jobs a.jobId
  pure (a, c, j)

/-- UPDATE applications SET status = ? WHERE id = ?. -/
def setStatus (db : DB) (i : Nat) (st : String) : DB :=
  { db with applications :=
      db.applications.map fun a => if a.id = i then { a with status := st } else a }

/-- The gateway always exists as an object in src/app.py (`mail = Mail(app)`),
so the `if not mail` guards never fire; the constant records that fact. -/
def mailConfigured : Bool := true

/-! ### Python string ordering and `sorted(list(set(...)))`

`generate_final_report` renders proctoring flags with
`sorted(list(set(proctoring_flags)))`.  Python compares strings
lexicographically by code point; `charsLe` is that relation on the
underlying character lists. -/

/-- Code-point lexicographic `<=` on character lists (Python string order). -/
def charsLe : List Char → List Char → Bool
  | [], _ => true
  | _ :: _, [] => false
  | a :: as, b :: bs =>
    if a.toNat < b.toNat then true
    else if b.toNat < a.toNat then false
    else charsLe as bs

/-- Python string `<=`. -/
def strLe (a b : String) : Bool := charsLe a.data b.data

theorem charsLe_cons_iff {x y : Char} {xs ys : List Char} :
    charsLe (x :: xs) (y :: ys) = true ↔
      (x.toNat < y.toNat ∨ (x.toNat = y.toNat ∧ charsLe xs ys = true)) := by
  simp only [charsLe]
  split_ifs with h1 h2
  · simp [h1]
  · simp; omega
  · have hxy : x.toNat = y.toNat := by omega
    simp [hxy]

theorem charsLe_total : ∀ a b, charsLe a b = true ∨ charsLe b a = true := by
  intro a
  induction a with
  | nil => intro b; left; cases b <;> rfl
  | cons x xs ih =>
    intro b
    cases b with
    | nil => right; rfl
    | cons y ys =>
      rw [charsLe_cons_iff, charsLe_cons_iff]
      rcases Nat.lt_trichotomy x.toNat y.toNat with h | h | h
      · left; left; exact h
      · rcases ih ys with h2 | h2
        · left; right; exact ⟨h, h2⟩
        · right; right; exact ⟨h.symm, h2⟩
      · right; left; exact h

theorem charsLe_trans : ∀ a b c, charsLe a b = true → charsLe b c = true → charsLe a c = true := by
  intro a
  induction a with
  | nil => intro b c _ _; cases c <;> rfl
  | cons x xs ih =>
    intro b c hab hbc
    cases b with
    | nil => simp [charsLe] at hab
    | cons y ys =>
      cases c with
      | nil => simp [charsLe] at hbc
      | cons z zs =>
        rw [charsLe_cons_iff] at hab hbc ⊢
        rcases hab with h1 | ⟨h1, h1r⟩ <;> rcases hbc with h2 | ⟨h2, h2r⟩
        · left; omega
        · left; omega
        · left; omega
        · right; exact ⟨by omega, ih ys zs h1r h2r⟩

theorem strLe_total (a b : String) : strLe a b = true ∨ strLe b a = true :=
  charsLe_total a.data b.data

theorem strLe_trans {a b c : String} (h1 : strLe a b = true) (h2 : strLe b c = true) :
    strLe a c = true :=
  charsLe_trans a.data b.data c.data h1 h2

/-- Ordered insertion into a sorted string list. -/
def insertStr (x : String) : List String → List String
  | [] => [x]
  | y :: ys => if strLe x y then x :: y :: ys else y :: insertStr x ys

/-- Insertion sort on strings (Python `sorted` on a list of strings). -/
def sortStrs : List String → List String
  | [] => []
  | x :: xs => insertStr x (sortStrs xs)

/-- `sorted(list(set(l)))` from src/app.py line 465: deduplicate, then sort
lexicographically. -/
def pySortedSet (l : List String) : List String := sortStrs l.dedup

theorem mem_insertStr {y x : String} : ∀ {l : List String}, y ∈ insertStr x l ↔ y = x ∨ y ∈ l := by
  intro l
  induction l with
  | nil => simp [insertStr]
  | cons z zs ih =>
    by_cases h : strLe x z = true
    · simp only [insertStr, if_pos h, List.mem_cons]
    · simp only [insertStr, if_neg h, List.mem_cons, ih]
      tauto

theorem perm_insertStr (x : String) : ∀ (l : List String), List.Perm (insertStr x l) (x :: l) := by
  intro l
  induction l with
  | nil => simp [insertStr]
  | cons z zs ih =>
    by_cases h : strLe x z = true
    · simp [insertStr, h]
    · simp only [insertStr, if_neg h]
      exact (ih.cons z).trans (List.Perm.swap x z zs)

theorem perm_sortStrs : ∀ (l : List String), List.Perm (sortStrs l) l := by
  intro l
  induction l with
  | nil => simp [sortStrs]
  | cons z zs ih => exact (perm_insertStr z (sortStrs zs)).trans (ih.cons z)

theorem mem_sortStrs {y : String} {l : List String} : y ∈ sortStrs l ↔ y ∈ l :=
  (perm_sortStrs l).mem_iff

theorem sorted_insertStr {x : String} :
    ∀ {l : List String}, List.Pairwise (fun a b => strLe a b = true) l →
      List.Pairwise (fun a b => strLe a b = true) (insertStr x l) := by
  intro l
  induction l with
  | nil => intro _; simp [insertStr]
  | cons z zs ih =>
    intro hs
    rcases List.pairwise_cons.1 hs with ⟨hz, hzs⟩
    by_cases h : strLe x z = true
    · rw [insertStr, if_pos h]
      refine List.pairwise_cons.2 ⟨?_, hs⟩
      intro b hb
      rcases List.mem_cons.1 hb with rfl | hb
      · exact h
      · exact strLe_trans h (hz b hb)
    · rw [insertStr, if_neg h]
      refine List.pairwise_cons.2 ⟨?_, ih hzs⟩
      intro b hb
      rcases mem_insertStr.1 hb with rfl | hb
      · rcases strLe_total b z with h1 | h1
        · exact absurd h1 h
        · exact h1
      · exact hz b hb

theorem sorted_sortStrs : ∀ (l : List String),
    List.Pairwise (fun a b => strLe a b = true) (sortStrs l) := by
  intro l
  induction l with
  | nil => simp [sortStrs]
  | cons z zs ih => exact sorted_insertStr ih

theorem pySortedSet_sorted (l : List String) :
    List.Pairwise (fun a b => strLe a b = true) (pySortedSet l) :=
  sorted_sortStrs l.dedup

theorem pySortedSet_nodup (l : List String) : (pySortedSet l).Nodup :=
  ((perm_sortStrs l.dedup).nodup_iff).2 (List.nodup_dedup l)

theorem pySortedSet_mem (l : List String) (s : String) : s ∈ pySortedSet l ↔ s ∈ l := by
  rw [pySortedSet, mem_sortStrs, List.mem_dedup]

/-! ### Model gateway plumbing

`model.generate_content(prompt)` either raises or yields a response whose
`.text` we record; `json.loads` is the `loads` oracle (`none` models a raised
`JSONDecodeError`).  The code-fence stripping is the exact string surgery of
src/app.py. -/

/-- Outcome of one `model.generate_content` call. -/
inductive GenResult where
  | exc : GenResult
  | text : String → GenResult

/-- Code-point prefix test on character lists. -/
def charsPrefix : List Char → List Char → Bool
  | [], _ => true
  | _ :: _, [] => false
  | a :: as, b :: bs => a.toNat == b.toNat && charsPrefix as bs

/-- The whitespace class Python `str.strip()` removes (ASCII part). -/
def isPyWs (c : Char) : Bool :=
  c.toNat == 32 || c.toNat == 9 || c.toNat == 10 || c.toNat == 13 ||
    c.toNat == 11 || c.toNat == 12

/-- Strip leading and trailing whitespace from a character list. -/
def stripChars (l : List Char) : List Char :=
  ((l.dropWhile isPyWs).reverse.dropWhile isPyWs).reverse

/-- Python `str.strip()`. -/
def pyStrip (s : String) : String := ⟨stripChars s.data⟩

/-- Remove every non-overlapping occurrence of the pattern `p :: ps`,
scanning left to right (fuel bounds the recursion; one list element is
consumed per step, so `l.length` fuel is always enough). -/
def removeAllGo (p : Char) (ps : List Char) : Nat → List Char → List Char
  | 0, l => l
  | _ + 1, [] => []
  | fuel + 1, c :: rest =>
    if charsPrefix (p :: ps) (c :: rest) then removeAllGo p ps fuel (rest.drop ps.length)
    else c :: removeAllGo p ps fuel rest

/-- Python `s.replace(pat, '')`. -/
def pyRemove (s pat : String) : String :=
  match pat.data with
  | [] => s
  | p :: ps => ⟨removeAllGo p ps s.data.length s.data⟩

/-- `response.text.strip().replace('```json', '').replace('```', '').strip()`
(used by question generation, casualize, scoring and the final report). -/
def cleanFenced (s : String) : String :=
  pyStrip (pyRemove (pyRemove (pyStrip s) "```json") "```")

/-- `response.text.strip().replace('```json', '').replace('```', '')` (the
shortlist variant, line 218: no trailing strip). -/
def cleanFencedNoTrim (s : String) : String :=
  pyRemove (pyRemove (pyStrip s) "```json") "```"

/-- jsonify of an optional string (`None` becomes JSON null). -/
def optStrJson : Option String → PyJson
  | none => .null
  | some s => .str s

/-- Python falsiness of `data.get(key)` for a string field: missing or empty. -/
def optFalsy (q : Option String) : Bool := (q.getD "") == ""

/-- The hard-coded fallback question set of `generate_questions_for_job`
(src/app.py line 345). -/
def defaultQuestions : List String :=
  ["Could you please tell me about your experience?",
   "What is your biggest strength?",
   "What is your biggest weakness?",
   "Why are you interested in this role?",
   "Where do you see yourself in 5 years?"]

/-- The JSON body holding the fallback questions. -/
def defaultQuestionsJson : PyJson := .obj [("questions", .arr (defaultQuestions.map .str))]

/-- `generate_questions_for_job(job, skills)` (src/app.py lines 333-345):
an error dict when the model client is not configured, the parsed model
response when generation and parsing succeed, and the default question set
when either of them raises. -/
def generate_questions_for_job (modelConfigured : Bool) (gen : GenResult)
    (loads : String → Option PyJson) : PyJson :=
  if !modelConfigured then .obj [("error", .str "AI model not configured.")]
  else
    match gen with
    | .exc => defaultQuestionsJson
    | .text raw =>
      match loads (cleanFenced raw) with
      | none => defaultQuestionsJson
      | some v => v

/-- applications JOIN jobs lookup used by start_interview. -/
def joinAppJob (db : DB) (i : Nat) : Option (Application × Job) := do
  let a ← findApp db.applications i
  let j ← findJob db.jobs a.jobId
  pure (a, j)

/-- `start_interview` (src/app.py lines 347-362): no login or status check;
404 when the id joins to no row, otherwise the session is primed and the
question payload returned with HTTP 200. -/
def start_interview (db : DB) (sess : Session) (appIdReq : Option Nat)
    (modelConfigured : Bool) (gen : GenResult) (loads : String → Option PyJson) :
    (Nat × PyJson) × Session :=
  match appIdReq.bind (joinAppJob db) with
  | none => ((404, errBody "Invalid interview link."), sess)
  | some (_a, j) =>
    let sess2 := { sess with applicationId := appIdReq, jobRequirements := some j.description }
    ((200, generate_questions_for_job modelConfigured gen loads), sess2)

/-- `make_casual_api` (src/app.py lines 381-390). -/
def make_casual_api (modelConfigured : Bool) (question : Option String)
    (gen : GenResult) (loads : String → Option PyJson) : Nat × PyJson :=
  if !modelConfigured then (500, errBody "AI model not configured.")
  else
    match gen with
    | .exc => (200, .obj [("casual_question", optStrJson question)])
    | .text raw =>
      match loads (cleanFenced raw) with
      | none => (200, .obj [("casual_question", optStrJson question)])
      | some v => (200, v)

/-- `score_answer` (src/app.py lines 392-416).  The whole handler body after
the model guard sits in one try/except, so a non-JSON request, a raised model
call and a JSON parse failure all end as the generic 500; a successfully
parsed value is returned as-is with HTTP 200. -/
def score_answer (modelConfigured : Bool) (reqIsJson : Bool)
    (question answer : Option String) (gen : GenResult)
    (loads : String → Option PyJson) : Nat × PyJson :=
  if !modelConfigured then (500, errBody "AI model not configured.")
  else if !reqIsJson then (500, errBody "Failed to score answer: request body is not JSON.")
  else if optFalsy question || optFalsy answer then
    (400, errBody "Both question and answer are required.")
  else
    match gen with
    | .exc => (500, errBody "Failed to score answer: model call failed.")
    | .text raw =>
      match loads (cleanFenced raw) with
      | none => (500, errBody "Failed to score answer: invalid JSON.")
      | some v => (200, v)

/-- `send_invite` (src/app.py lines 228-249): admin check, join lookup, email
send; on delivery success the status is set to Invited with no check of the
current status; on failure nothing is written.  The email body interpolates
`session['company_name']`, whose absence would raise (Flask 500). -/
def send_invite (db : DB) (sess : Session) (appId : Nat) (emailOk : Bool) :
    (Nat × PyJson) × DB :=
  if sess.userType ≠ some "admin" then ((401, errBody "Unauthorized"), db)
  else if !mailConfigured then ((500, errBody "Email server is not configured."), db)
  else
    match joinAppCandJob db appId with
    | none => ((404, errBody "Application not found."), db)
    | some _ =>
      match sess.companyName with
      | none => ((500, errBody "Internal Server Error"), db)
      | some _cn =>
        if emailOk then
          ((200, msgBody "Interview invitation sent."), setStatus db appId "Invited")
        else
          ((500, errBody "Failed to send email. Check server configuration."), db)

/-- `update_status` (src/app.py lines 251-280): admin check, JSON guard,
requested-status whitelist, join lookup; for Accepted the notification email
is sent first and a failure aborts before the UPDATE; for Rejected no email
is attempted.  The application's current status is never read. -/
def update_status (db : DB) (sess : Session) (appId : Nat) (reqIsJson : Bool)
    (reqStatus : Option String) (emailOk : Bool) : (Nat × PyJson) × DB :=
  if sess.userType ≠ some "admin" then ((401, errBody "Unauthorized"), db)
  else if !reqIsJson then
    ((415, errBody "Invalid request: Content-Type must be application/json."), db)
  else
    match reqStatus with
    | none => ((400, errBody "Invalid status provided in request body."), db)
    | some st =>
      if st ≠ "Accepted" ∧ st ≠ "Rejected" then
        ((400, errBody "Invalid status provided in request body."), db)
      else
        match joinAppCandJob db appId with
        | none => ((404, errBody "Application not found."), db)
        | some _ =>
          if st = "Accepted" ∧ mailConfigured ∧ !emailOk then
            ((500, errBody "Failed to send email."), db)
          else
            ((200, msgBody ("Candidate status updated to " ++ st ++ ".")),
             setStatus db appId st)

/-! ### Shortlisting -/

/-- SELECT description FROM jobs WHERE id = ? AND admin_id = ?. -/
def findJobOwned (l : List Job) (jobId adminId : Nat) : Option Job :=
  match l with
  | [] => none
  | j :: t => if j.id = jobId ∧ j.adminId = adminId then some j else findJobOwned t jobId adminId

/-- SELECT ... FROM applications WHERE job_id = ? AND status = 'Applied'. -/
def appliedApps (l : List Application) (jobId : Nat) : List Application :=
  match l with
  | [] => []
  | a :: t =>
    if a.jobId = jobId ∧ a.status = "Applied" then a :: appliedApps t jobId
    else appliedApps t jobId

/-- The per-application gateway round trip of the shortlist loop:
`none` when either the model call or `json.loads` raised (the except branch),
otherwise the parsed JSON. -/
def shortlistDecision (gen : Nat → GenResult) (loads : String → Option PyJson)
    (i : Nat) : Option PyJson :=
  match gen i with
  | .exc => none
  | .text raw => loads (cleanFencedNoTrim raw)

/-- The effect of one shortlist-loop iteration for application `a` on a row
`x` of the applications table: the UPDATE runs only when the decision parsed
to a dict whose `shortlisted` entry is truthy (a `.get` on a non-dict raises
and is swallowed by the except branch), and targets the row with id `a.id`. -/
def appStep (gen : Nat → GenResult) (loads : String → Option PyJson)
    (a : Application) (x : Application) : Application :=
  match shortlistDecision gen loads a.id with
  | some (.obj fs) =>
    if PyJson.pyTruthy ((PyJson.getField fs "shortlisted").getD .null) ∧ x.id = a.id then
      { x with status := "Shortlisted"
             , shortlistReason := some ((PyJson.getField fs "reason").getD (.str "")) }
    else x
  | _ => x

/-- One shortlist-loop iteration as a store transformation. -/
def shortlistApply (gen : Nat → GenResult) (loads : String → Option PyJson)
    (db : DB) (a : Application) : DB :=
  { db with applications := db.applications.map (appStep gen loads a) }

/-- `shortlist_candidates` (src/app.py lines 195-226): iterate the Applied
applications of the job, asking the gateway about each; failures are logged
and skipped, positives are updated; one commit at the end. -/
def shortlist_candidates (db : DB) (sess : Session) (jobId : Nat)
    (gen : Nat → GenResult) (loads : String → Option PyJson) : (Nat × PyJson) × DB :=
  if sess.userType ≠ some "admin" then ((401, errBody "Unauthorized"), db)
  else
    match sess.adminId with
    | none => ((500, errBody "Internal Server Error"), db)
    | some aid =>
      let job := findJobOwned db.jobs jobId aid
      let apps := appliedApps db.applications jobId
      if job.isNone then ((404, errBody "Job not found"), db)
      else if apps.isEmpty then ((200, msgBody "No new applications to shortlist."), db)
      else
        let K := apps.length
        ((200, msgBody ("Shortlisting complete for " ++ toString K ++ " applications.")),
         apps.foldl (shortlistApply gen loads) db)

/-! ### Résumé text extraction -/

/-- What the uploaded bytes turn out to be once the chosen parser runs:
a PDF (per-page `extract_text()` results, `none` for a page yielding Python
`None`), a DOCX (paragraph texts), or bytes the chosen parser rejects. -/
inductive UploadContent where
  | pdfPages : List (Option String) → UploadContent
  | docxParas : List String → UploadContent
  | corrupt : UploadContent

/-- Python `str.endswith` (kernel-computable suffix test). -/
def strEndsWith (s suffix : String) : Bool :=
  charsPrefix suffix.data.reverse s.data.reverse

/-- `text += page.extract_text() or ""` folded over the PDF pages. -/
def pdfText (pages : List (Option String)) : String :=
  pages.foldl (fun acc p => acc ++ p.getD "") ""

/-- `text += para.text + '\n'` folded over the DOCX paragraphs. -/
def docxText (paras : List String) : String :=
  paras.foldl (fun acc p => acc ++ p ++ "\n") ""

/-- `extract_text` (src/app.py lines 364-379): dispatch on the filename
extension; unsupported extensions get a 400; a parser exception gets a 500;
otherwise the accumulated text is returned as-is - there is no emptiness
check on the result. -/
def extract_text (hasFile : Bool) (filename : String) (content : UploadContent) :
    Nat × PyJson :=
  if !hasFile then (400, errBody "No file found.")
  else if strEndsWith filename ".pdf" then
    match content with
    | .pdfPages ps => (200, .obj [("text", .str (pdfText ps))])
    | _ => (500, errBody "Error processing file: invalid PDF data.")
  else if strEndsWith filename ".docx" then
    match content with
    | .docxParas ps => (200, .obj [("text", .str (docxText ps))])
    | _ => (500, errBody "Error processing file: invalid DOCX data.")
  else (400, errBody "Unsupported file type.")

/-! ### Final report -/

/-- `"Q: {..}\nA: {..}\nScore: {..}/10\nFeedback: {..}\n"` for one entry. -/
def formatEntry (r : REntry) : String :=
  "Q: " ++ r.question ++ "\nA: " ++ r.answer ++ "\nScore: " ++ toString r.score ++
    "/10\nFeedback: " ++ r.feedback ++ "\n"

/-- `"\n".join(...)` over the recorded entries: the transcript fed to the
final-scorecard prompt. -/
def formattedResults (l : List REntry) : String :=
  String.intercalate "\n" (l.map formatEntry)

/-- One flowable appended to the reportlab story. -/
inductive StoryElem where
  | titlePara : String → StoryElem
  | heading : String → StoryElem
  | paraV : PyJson → StoryElem
  | bulletV : PyJson → StoryElem
  | warnBullet : String → StoryElem
  | spacer : StoryElem
  | hr : StoryElem

/-- `scorecard_data.get(key, [])` where the story loop then iterates the
value: missing means `[]`, a JSON array iterates, anything else raises. -/
def getListField (fs : List (String × PyJson)) (key : String) : Option (List PyJson) :=
  match PyJson.getField fs key with
  | none => some []
  | some (.arr l) => some l
  | some _ => none

/-- The PDF story of `generate_final_report` (src/app.py lines 448-465):
title, summary, strengths bullets, improvement bullets, recommendation, and -
only when `proctoring_flags` is non-empty - a separator followed by the
deduplicated, sorted flags as warning bullets. -/
def buildStory (fs : List (String × PyJson)) (strengths areas : List PyJson)
    (flags : List String) : List StoryElem :=
  [.titlePara "Candidate Performance Report",
   .heading "Overall Summary",
   .paraV ((PyJson.getField fs "overall_summary").getD (.str "N/A")),
   .spacer,
   .heading "Key Strengths"]
  ++ strengths.map .bulletV
  ++ [.spacer, .heading "Areas for Improvement"]
  ++ areas.map .bulletV
  ++ [.spacer, .heading "Final Recommendation",
      .paraV ((PyJson.getField fs "final_recommendation").getD (.str "N/A"))]
  ++ (if flags.isEmpty then []
      else [.spacer, .hr, .heading "Proctoring Flags"] ++ (pySortedSet flags).map .warnBullet)

/-- UPDATE applications SET report_path = ?, status = 'Completed',
interview_results = ? WHERE id = ?. -/
def setCompleted (db : DB) (i : Nat) (path : String) (results : List REntry) : DB :=
  { db with applications :=
      db.applications.map fun a =>
        if a.id = i then
          { a with reportPath := some path, status := "Completed",
                   interviewResults := some results }
        else a }

/-- Observable outcome of one `generate_final_report` request.  `calledModel`
instruments whether control reached `model.generate_content`. -/
structure ReportStep where
  code : Nat
  body : PyJson
  calledModel : Bool
  db : DB
  sess : Session

/-- `generate_final_report` (src/app.py lines 418-480).  The handler checks
only that `application_id` is in the session; the posted `interview_results`
list is formatted (an empty list formats to the empty transcript - there is
no emptiness check) and the model is then invoked; every raise inside the
try block becomes the generic 500 with no store write; on full success the
application row is updated and the session cleared. -/
def generate_final_report (db : DB) (sess : Session) (modelConfigured : Bool)
    (reqResults : Option (List REntry)) (reqFlags : List String)
    (gen : GenResult) (loads : String → Option PyJson) : ReportStep :=
  match sess.applicationId with
  | none => ⟨401, errBody "Unauthorized", false, db, sess⟩
  | some appId =>
    match sess.jobRequirements with
    | none => ⟨500, errBody "An error occurred: missing job requirements", false, db, sess⟩
    | some _jr =>
      match reqResults with
      | none => ⟨500, errBody "An error occurred: results are not iterable", false, db, sess⟩
      | some results =>
        let _transcript := formattedResults results
        if !modelConfigured then
          ⟨500, errBody "An error occurred: AI model not configured", false, db, sess⟩
        else
          match gen with
          | .exc => ⟨500, errBody "An error occurred: model call failed", true, db, sess⟩
          | .text raw =>
            match loads (cleanFenced raw) with
            | none => ⟨500, errBody "An error occurred: invalid JSON", true, db, sess⟩
            | some (.obj fs) =>
              match getListField fs "strengths", getListField fs "areas_for_improvement" with
              | some strengths, some areas =>
                let _story := buildStory fs strengths areas reqFlags
                let path := "reports/report_application_" ++ toString appId ++ ".pdf"
                ⟨200, msgBody "Interview submitted successfully.", true,
                 setCompleted db appId path results, Session.cleared⟩
              | _, _ =>
                ⟨500, errBody "An error occurred: scorecard lists malformed", true, db, sess⟩
            | some _ =>
              ⟨500, errBody "An error occurred: scorecard is not a dict", true, db, sess⟩

/-! ### Concrete fixtures used by witnesses and counterexamples -/

/-- A candidate row. -/
def cand1 : Candidate := ⟨1, "Asha Rao", "asha@example.com"⟩

/-- A job row owned by admin 7. -/
def job1 : Job := ⟨1, 7, "Backend Engineer", "Build and operate services."⟩

/-- An application for `job1` by `cand1` in the given status. -/
def mkApp (st : String) : Application := ⟨1, 1, 1, "resume text", st, none, none, none⟩

/-- A one-application store in the given status. -/
def dbWith (st : String) : DB := ⟨[cand1], [job1], [mkApp st]⟩

/-- A logged-in admin session (admin 7, company name set at login). -/
def adminSess : Session := ⟨some "admin", some 7, some "Acme", none, none, none⟩

/-! ### C1 - source-state checking of send_invite / update_status -/

/-- Claim C1 counterexample: with the application still in `Applied` (not the
required source state `Shortlisted`), `send_invite` does not fail with any
InvalidTransition error - it reports success and rewrites the status to
`Invited`. -/
theorem C1_invalid_transition_refuted :
    (send_invite (dbWith "Applied") adminSess 1 true).1.1 = 200 ∧
    findApp (send_invite (dbWith "Applied") adminSess 1 true).2.applications 1 =
      some { mkApp "Applied" with status := "Invited" } :=
  ⟨rfl, rfl⟩

/-- Claim C1 (amended): neither `send_invite` nor `update_status` reads the
application's current status.  For every existing application, whatever its
status: `send_invite` succeeds and sets the status to Invited whenever the
email is delivered, and leaves the store untouched (with a 500) when it is
not; `update_status` sets any requested Accepted/Rejected status (for
Accepted only when the notification email is delivered).  No InvalidTransition
rejection exists. -/
theorem C1_status_ops_skip_source_state_check
    (db : DB) (sess : Session) (appId : Nat) (row : Application × Candidate × Job)
    (cn : String)
    (hadmin : sess.userType = some "admin") (hcn : sess.companyName = some cn)
    (hfound : joinAppCandJob db appId = some row) :
    (send_invite db sess appId true =
        ((200, msgBody "Interview invitation sent."), setStatus db appId "Invited"))
    ∧ ((send_invite db sess appId false).1.1 = 500 ∧ (send_invite db sess appId false).2 = db)
    ∧ (∀ st emailOk, (st = "Accepted" ∨ st = "Rejected") → (st = "Accepted" → emailOk = true) →
        update_status db sess appId true (some st) emailOk =
          ((200, msgBody ("Candidate status updated to " ++ st ++ ".")), setStatus db appId st)) := by
  refine ⟨?_, ⟨?_, ?_⟩, ?_⟩
  · simp [send_invite, hadmin, hcn, hfound, mailConfigured]
  · simp [send_invite, hadmin, hcn, hfound, mailConfigured]
  · simp [send_invite, hadmin, hcn, hfound, mailConfigured]
  · intro st emailOk hst hemail
    rcases hst with rfl | rfl
    · have : emailOk = true := hemail rfl
      subst this
      simp [update_status, hadmin, hfound, mailConfigured]
    · cases emailOk <;> simp [update_status, hadmin, hfound, mailConfigured]

/-- Claim C1 witness: the amended behaviour at a concrete store. -/
theorem C1_status_ops_witness :
    send_invite (dbWith "Applied") adminSess 1 true =
      ((200, msgBody "Interview invitation sent."), setStatus (dbWith "Applied") 1 "Invited") :=
  (C1_status_ops_skip_source_state_check (dbWith "Applied") adminSess 1
      (mkApp "Applied", cand1, job1) "Acme" rfl rfl rfl).1

/-! ### C4 - Accepted blocks on email failure, Rejected does not -/

/-- Claim C4: from `Completed`, updating to Accepted commits only when the
acceptance email is delivered - a failed delivery surfaces a 500 and leaves
the store untouched - while updating to Rejected commits regardless of email
delivery (no email is even attempted). -/
theorem C4_completed_accept_requires_email
    (db : DB) (sess : Session) (appId : Nat) (row : Application × Candidate × Job)
    (hadmin : sess.userType = some "admin")
    (hfound : joinAppCandJob db appId = some row)
    (hcompleted : row.1.status = "Completed") :
    ((update_status db sess appId true (some "Accepted") false).1.1 = 500 ∧
     (update_status db sess appId true (some "Accepted") false).2 = db)
    ∧ (update_status db sess appId true (some "Accepted") true =
        ((200, msgBody "Candidate status updated to Accepted."), setStatus db appId "Accepted"))
    ∧ (∀ emailOk, update_status db sess appId true (some "Rejected") emailOk =
        ((200, msgBody "Candidate status updated to Rejected."), setStatus db appId "Rejected")) := by
  refine ⟨⟨?_, ?_⟩, ?_, ?_⟩
  · simp [update_status, hadmin, hfound, mailConfigured]
  · simp [update_status, hadmin, hfound, mailConfigured]
  · simp [update_status, hadmin, hfound, mailConfigured]
  · intro emailOk
    cases emailOk <;> simp [update_status, hadmin, hfound, mailConfigured]

/-- Claim C4 witness: the Accepted/Rejected email policy at a concrete
Completed application. -/
theorem C4_completed_accept_requires_email_witness :
    (update_status (dbWith "Completed") adminSess 1 true (some "Accepted") false).1.1 = 500 ∧
    (update_status (dbWith "Completed") adminSess 1 true (some "Accepted") false).2 =
      dbWith "Completed" :=
  (C4_completed_accept_requires_email (dbWith "Completed") adminSess 1
      (mkApp "Completed", cand1, job1) rfl rfl rfl).1

/-! ### C10 / C6 - start_interview -/

/-- Claim C10: `start_interview` checks neither login nor application status:
for any session (logged in or not) and any current status, a request naming
an existing application id returns HTTP 200 and primes the interview session
state; an unknown id is the only failure (404); and with the model client
configured a gateway failure still yields the default question payload. -/
theorem C10_start_interview_no_auth_no_state_check
    (db : DB) (sess : Session) (appId : Nat) (a : Application) (j : Job)
    (hfound : joinAppJob db appId = some (a, j)) :
    (∀ mc gen loads,
        (start_interview db sess (some appId) mc gen loads).1.1 = 200 ∧
        (start_interview db sess (some appId) mc gen loads).2 =
          { sess with applicationId := some appId, jobRequirements := some j.description })
    ∧ (∀ badId, joinAppJob db badId = none → ∀ mc gen loads,
        start_interview db sess (some badId) mc gen loads =
          ((404, errBody "Invalid interview link."), sess))
    ∧ (∀ loads, (start_interview db sess (some appId) true GenResult.exc loads).1.2 =
        defaultQuestionsJson) := by
  refine ⟨?_, ?_, ?_⟩
  · intro mc gen loads
    constructor <;> simp [start_interview, hfound]
  · intro badId hbad mc gen loads
    simp [start_interview, hbad]
  · intro loads
    simp [start_interview, hfound, generate_questions_for_job]

/-- Claim C10 witness: a logged-out session and a terminal-status application
still start an interview. -/
theorem C10_start_interview_witness :
    (start_interview (dbWith "Rejected") Session.cleared (some 1) true GenResult.exc
        (fun _ => none)).1.1 = 200 ∧
    (start_interview (dbWith "Rejected") Session.cleared (some 1) true GenResult.exc
        (fun _ => none)).2 =
      { Session.cleared with applicationId := some 1, jobRequirements := some job1.description } :=
  (C10_start_interview_no_auth_no_state_check (dbWith "Rejected") Session.cleared 1
      (mkApp "Rejected") job1 rfl).1 true GenResult.exc (fun _ => none)

/-- Claim C6: with the model client configured, `start_interview` on a known
application id returns the fixed default set of 5 generic questions whenever
the gateway call raises or its response fails to parse, instead of an
error. -/
theorem C6_gateway_failure_falls_back_to_default_questions
    (db : DB) (sess : Session) (appId : Nat) (a : Application) (j : Job)
    (hfound : joinAppJob db appId = some (a, j)) (loads : String → Option PyJson) :
    ((start_interview db sess (some appId) true GenResult.exc loads).1 =
        (200, defaultQuestionsJson))
    ∧ (∀ raw, loads (cleanFenced raw) = none →
        (start_interview db sess (some appId) true (GenResult.text raw) loads).1 =
          (200, defaultQuestionsJson))
    ∧ defaultQuestions.length = 5 := by
  refine ⟨?_, ?_, rfl⟩
  · simp [start_interview, hfound, generate_questions_for_job]
  · intro raw hraw
    simp [start_interview, hfound, generate_questions_for_job, hraw]

/-- Claim C6 witness: the default questions at a concrete store and a raising
gateway. -/
theorem C6_default_questions_witness :
    (start_interview (dbWith "Invited") Session.cleared (some 1) true GenResult.exc
        (fun _ => none)).1 = (200, defaultQuestionsJson) :=
  (C6_gateway_failure_falls_back_to_default_questions (dbWith "Invited") Session.cleared 1
      (mkApp "Invited") job1 rfl (fun _ => none)).1

/-! ### C7 - casualize -/

/-- Claim C7 counterexample: when the model client is not configured (the
`model = None` startup path of src/app.py), `make_casual_api` returns an
observable 500 error rather than the original question. -/
theorem C7_unconfigured_model_errors :
    make_casual_api false (some "Tell me about your project.") GenResult.exc (fun _ => none) =
      (500, errBody "AI model not configured.") := rfl

/-- Claim C7 (amended): provided the model client is configured, casualize
never returns an observable error - any gateway raise or parse failure falls
back to the original question text as `casual_question` with HTTP 200; when
the model client is not configured the endpoint instead returns a 500
error. -/
theorem C7_casual_fallback
    (question : Option String) (loads : String → Option PyJson) :
    (make_casual_api true question GenResult.exc loads =
        (200, PyJson.obj [("casual_question", optStrJson question)]))
    ∧ (∀ raw, loads (cleanFenced raw) = none →
        make_casual_api true question (GenResult.text raw) loads =
          (200, PyJson.obj [("casual_question", optStrJson question)]))
    ∧ (∀ raw v, loads (cleanFenced raw) = some v →
        make_casual_api true question (GenResult.text raw) loads = (200, v))
    ∧ (make_casual_api false question GenResult.exc loads =
        (500, errBody "AI model not configured.")) := by
  refine ⟨?_, ?_, ?_, ?_⟩
  · simp [make_casual_api]
  · intro raw hraw
    simp [make_casual_api, hraw]
  · intro raw v hraw
    simp [make_casual_api, hraw]
  · simp [make_casual_api]

/-- Claim C7 witness: the fallback at a concrete question. -/
theorem C7_casual_fallback_witness :
    make_casual_api true (some "Why Rust?") GenResult.exc (fun _ => none) =
      (200, PyJson.obj [("casual_question", optStrJson (some "Why Rust?"))]) :=
  (C7_casual_fallback (some "Why Rust?") (fun _ => none)).1

/-! ### C8 - text extraction -/

/-- Claim C8 counterexample: a `.pdf` upload with no extractable text does not
fail with any EmptyExtraction error - `extract_text` returns HTTP 200 with the
empty string. -/
theorem C8_blank_pdf_succeeds :
    extract_text true "resume.pdf" (UploadContent.pdfPages [none, some ""]) =
      (200, PyJson.obj [("text", PyJson.str "")]) := rfl

/-- Claim C8 (amended): an upload whose filename ends in neither `.pdf` nor
`.docx` fails with the unsupported-file-type error (400), but a supported
extension with blank extracted text does not fail: the endpoint returns
HTTP 200 carrying whatever text was accumulated, the empty string included -
no EmptyExtraction check exists. -/
theorem C8_extraction_behaviour (filename : String) :
    (∀ content, strEndsWith filename ".pdf" = false → strEndsWith filename ".docx" = false →
        extract_text true filename content = (400, errBody "Unsupported file type."))
    ∧ (∀ ps, strEndsWith filename ".pdf" = true →
        extract_text true filename (UploadContent.pdfPages ps) =
          (200, PyJson.obj [("text", PyJson.str (pdfText ps))]))
    ∧ (strEndsWith filename ".pdf" = true →
        extract_text true filename (UploadContent.pdfPages []) =
          (200, PyJson.obj [("text", PyJson.str "")])) := by
  refine ⟨?_, ?_, ?_⟩
  · intro content hpdf hdocx
    simp [extract_text, hpdf, hdocx]
  · intro ps hpdf
    simp [extract_text, hpdf]
  · intro hpdf
    simp [extract_text, hpdf, pdfText]

/-- Claim C8 witness: a `.txt` upload is rejected as unsupported. -/
theorem C8_extraction_witness :
    extract_text true "resume.txt" (UploadContent.docxParas ["text"]) =
      (400, errBody "Unsupported file type.") :=
  (C8_extraction_behaviour "resume.txt").1 (UploadContent.docxParas ["text"]) rfl rfl

/-! ### C3 - gateway response validation -/

/-- A parsed Score response whose score lies outside [0,10]. -/
def scoreBadVal : PyJson := .obj [("score", .num 99), ("feedback", .str "excellent answer")]

/-- The raw text json.loads would parse to `scoreBadVal`. -/
def scoreBadRaw : String := "\x7b\"score\": 99, \"feedback\": \"excellent answer\"\x7d"

/-- A json.loads oracle defined on the one string this example exercises. -/
def loadsScoreBad : String → Option PyJson :=
  fun s => if s = scoreBadRaw then some scoreBadVal else none

/-- Claim C3 counterexample: a fenced Score response parsing to
`{"score": 99, "feedback": ...}` - an integer outside [0,10] - is returned
to the client with HTTP 200 exactly as parsed; no MalformedModelResponse
failure occurs. -/
theorem C3_schema_violation_returned :
    score_answer true true (some "Explain TCP.") (some "It moves bytes.")
        (GenResult.text ("```json\n" ++ scoreBadRaw ++ "\n```")) loadsScoreBad =
      (200, scoreBadVal) := rfl

/-- Claim C3 (amended): the handlers strip surrounding code fences and parse
the text, but no schema validation exists for any prompt kind: every
successfully parsed value is returned (or acted on) as-is, out-of-range
scores included; a parse failure yields the generic 500 for Score and the
silent default-question fallback for Questions - never a structured
MalformedModelResponse. -/
theorem C3_no_schema_validation
    (question answer : String) (hq : question ≠ "") (ha : answer ≠ "")
    (loads : String → Option PyJson) :
    (∀ raw v, loads (cleanFenced raw) = some v →
        score_answer true true (some question) (some answer) (GenResult.text raw) loads =
          (200, v))
    ∧ (∀ raw, loads (cleanFenced raw) = none →
        (score_answer true true (some question) (some answer) (GenResult.text raw) loads).1 = 500)
    ∧ ((score_answer true true (some question) (some answer) GenResult.exc loads).1 = 500)
    ∧ (∀ raw, loads (cleanFenced raw) = none →
        generate_questions_for_job true (GenResult.text raw) loads = defaultQuestionsJson) := by
  refine ⟨?_, ?_, ?_, ?_⟩
  · intro raw v hraw
    simp [score_answer, optFalsy, hq, ha, hraw]
  · intro raw hraw
    simp [score_answer, optFalsy, hq, ha, hraw]
  · simp [score_answer, optFalsy, hq, ha]
  · intro raw hraw
    simp [generate_questions_for_job, hraw]

/-- Claim C3 witness: the unvalidated pass-through at the concrete bad
score. -/
theorem C3_no_schema_validation_witness :
    score_answer true true (some "Explain UDP.") (some "It also moves bytes.")
        (GenResult.text ("```json\n" ++ scoreBadRaw ++ "\n```")) loadsScoreBad =
      (200, scoreBadVal) :=
  (C3_no_schema_validation "Explain UDP." "It also moves bytes."
      (by decide) (by decide) loadsScoreBad).1
    ("```json\n" ++ scoreBadRaw ++ "\n```") scoreBadVal rfl

/-! ### C2 - finishInterview with zero recorded answers -/

/-- The session state `start_interview` leaves behind for application 1. -/
def reportSess : Session := ⟨none, none, none, none, some 1, some "Build and operate services."⟩

/-- A json.loads oracle parsing the bare object text. -/
def loadsEmptyObj : String → Option PyJson :=
  fun s => if s = "{}" then some (.obj []) else none

/-- Claim C2 counterexample: with zero recorded answers (`interview_results`
= `[]`) the report handler does not fail early: the model gateway is invoked,
the request completes with HTTP 200, and the application row is rewritten to
`Completed` with a stored report path. -/
theorem C2_empty_results_not_rejected :
    (generate_final_report (dbWith "Invited") reportSess true (some []) []
        (GenResult.text "{}") loadsEmptyObj).calledModel = true ∧
    (generate_final_report (dbWith "Invited") reportSess true (some []) []
        (GenResult.text "{}") loadsEmptyObj).code = 200 ∧
    findApp (generate_final_report (dbWith "Invited") reportSess true (some []) []
        (GenResult.text "{}") loadsEmptyObj).db.applications 1 =
      some { mkApp "Invited" with
        status := "Completed"
        reportPath := some "reports/report_application_1.pdf"
        interviewResults := some [] } :=
  ⟨rfl, rfl, rfl⟩

/-- Claim C2 (amended): `generate_final_report` performs no emptiness check
on the recorded results.  With an empty results list (which formats to the
empty transcript) and the session primed, the Model Gateway is invoked; when
the gateway raises the handler fails only afterwards, and when the response
parses to a scorecard object the operation completes with HTTP 200 and
mutates the application to Completed. -/
theorem C2_empty_results_still_call_model
    (db : DB) (sess : Session) (appId : Nat) (jr : String)
    (happ : sess.applicationId = some appId) (hjr : sess.jobRequirements = some jr)
    (flags : List String) (loads : String → Option PyJson) :
    formattedResults [] = ""
    ∧ (generate_final_report db sess true (some []) flags GenResult.exc loads).calledModel = true
    ∧ (∀ raw fs sl al, loads (cleanFenced raw) = some (.obj fs) →
        getListField fs "strengths" = some sl →
        getListField fs "areas_for_improvement" = some al →
        (generate_final_report db sess true (some []) flags (GenResult.text raw) loads).calledModel
            = true
        ∧ (generate_final_report db sess true (some []) flags (GenResult.text raw) loads).code
            = 200
        ∧ (generate_final_report db sess true (some []) flags (GenResult.text raw) loads).db =
            setCompleted db appId ("reports/report_application_" ++ toString appId ++ ".pdf") []) := by
  refine ⟨rfl, ?_, ?_⟩
  · simp [generate_final_report, happ, hjr]
  · intro raw fs sl al hraw hsl hal
    refine ⟨?_, ?_, ?_⟩ <;> simp [generate_final_report, happ, hjr, hraw, hsl, hal]

/-- Claim C2 witness: the gateway is reached on an empty results list at a
concrete store. -/
theorem C2_empty_results_witness :
    (generate_final_report (dbWith "Invited") reportSess true (some []) []
        GenResult.exc loadsEmptyObj).calledModel = true :=
  (C2_empty_results_still_call_model (dbWith "Invited") reportSess 1
      "Build and operate services." rfl rfl [] loadsEmptyObj).2.1

/-! ### C9 - proctoring flags in the report -/

/-- Projection extracting warning-bullet texts from a story. -/
def warnText : StoryElem → Option String
  | .warnBullet s => some s
  | _ => none

theorem filterMap_const_none {α β : Type} (l : List α) :
    l.filterMap (fun _ => (none : Option β)) = [] := by
  induction l with
  | nil => rfl
  | cons x xs ih => simp [List.filterMap_cons, ih]

theorem filterMap_warnText_bulletV (l : List PyJson) :
    l.filterMap (warnText ∘ StoryElem.bulletV) = [] := by
  induction l with
  | nil => rfl
  | cons x xs ih => simp [List.filterMap_cons, warnText, Function.comp, ih]

theorem filterMap_warnText_warnBullet (l : List String) :
    l.filterMap (warnText ∘ StoryElem.warnBullet) = l := by
  induction l with
  | nil => rfl
  | cons x xs ih => simp [List.filterMap_cons, warnText, Function.comp, ih]

/-- Claim C9: the report story contains the proctoring-flags section exactly
when the flags list is non-empty; the section's entries are the flags
deduplicated and lexicographically sorted; and the concrete input
`["tab-switch","tab-switch","no-face"]` renders exactly the two entries
`no-face`, `tab-switch` in that order. -/
theorem C9_proctoring_flags_section
    (fs : List (String × PyJson)) (strengths areas : List PyJson) (flags : List String) :
    ((StoryElem.heading "Proctoring Flags") ∈ buildStory fs strengths areas flags ↔ flags ≠ [])
    ∧ (buildStory fs strengths areas flags).filterMap warnText = pySortedSet flags
    ∧ List.Pairwise (fun a b => strLe a b = true) (pySortedSet flags)
    ∧ (pySortedSet flags).Nodup
    ∧ (∀ s, s ∈ pySortedSet flags ↔ s ∈ flags)
    ∧ pySortedSet ["tab-switch", "tab-switch", "no-face"] = ["no-face", "tab-switch"] := by
  refine ⟨?_, ?_, pySortedSet_sorted flags, pySortedSet_nodup flags, pySortedSet_mem flags,
    by decide⟩
  · cases flags with
    | nil => simp [buildStory, List.mem_append, List.mem_map]
    | cons f fl => simp [buildStory, List.mem_append, List.mem_map]
  · cases flags with
    | nil =>
      simp [buildStory, List.filterMap_append, List.filterMap_cons, warnText,
        filterMap_warnText_bulletV, filterMap_warnText_warnBullet, pySortedSet, sortStrs]
    | cons f fl =>
      simp [buildStory, List.filterMap_append, List.filterMap_cons, warnText,
        filterMap_warnText_bulletV, filterMap_warnText_warnBullet]

/-! ### C5 - shortlist batch tolerates individual failures -/

theorem appStep_ne {gen : Nat → GenResult} {loads : String → Option PyJson}
    {a x : Application} (h : x.id ≠ a.id) : appStep gen loads a x = x := by
  unfold appStep
  cases hd : shortlistDecision gen loads a.id with
  | none => rfl
  | some v => cases v <;> simp [h]

theorem appStep_noDecision {gen : Nat → GenResult} {loads : String → Option PyJson}
    {a x : Application} (h : shortlistDecision gen loads a.id = none) :
    appStep gen loads a x = x := by
  unfold appStep
  rw [h]

theorem foldl_appStep_fix {gen : Nat → GenResult} {loads : String → Option PyJson}
    {x : Application} :
    ∀ {l : List Application}, (∀ a ∈ l, appStep gen loads a x = x) →
      l.foldl (fun y a => appStep gen loads a y) x = x := by
  intro l
  induction l with
  | nil => intro _; rfl
  | cons b t ih =>
    intro h
    rw [List.foldl_cons, h b (List.mem_cons_self b t)]
    exact ih (fun a ha => h a (List.mem_cons_of_mem b ha))

theorem foldl_shortlistApply (gen : Nat → GenResult) (loads : String → Option PyJson) :
    ∀ (l : List Application) (db : DB),
      (l.foldl (shortlistApply gen loads) db).applications =
        db.applications.map (fun x => l.foldl (fun y a => appStep gen loads a y) x) := by
  intro l
  induction l with
  | nil => intro db; simp
  | cons b t ih =>
    intro db
    rw [List.foldl_cons, ih]
    show (db.applications.map (appStep gen loads b)).map _ = _
    rw [List.map_map]
    rfl

theorem mem_appliedApps {a : Application} {jobId : Nat} :
    ∀ {l : List Application}, a ∈ appliedApps l jobId →
      a ∈ l ∧ a.jobId = jobId ∧ a.status = "Applied" := by
  intro l
  induction l with
  | nil => intro h; simp [appliedApps] at h
  | cons b t ih =>
    intro h
    by_cases hb : b.jobId = jobId ∧ b.status = "Applied"
    · rw [appliedApps, if_pos hb] at h
      rcases List.mem_cons.1 h with rfl | h2
      · exact ⟨List.mem_cons_self a t, hb⟩
      · rcases ih h2 with ⟨h3, h4⟩
        exact ⟨List.mem_cons_of_mem b h3, h4⟩
    · rw [appliedApps, if_neg hb] at h
      rcases ih h with ⟨h3, h4⟩
      exact ⟨List.mem_cons_of_mem b h3, h4⟩

/-- Claim C5: over the job's Applied applications, when the gateway round
trip fails for exactly one application `a0`, the batch still completes with
its completion message over the full count; `a0` survives unchanged (still
`Applied`); and every other application transitions according to its own
gateway decision - to `Shortlisted` with the stored reason on a truthy
decision, untouched on a falsy one.  Ids are pairwise distinct (primary
key). -/
theorem C5_shortlist_batch_survives_single_failure
    (db : DB) (sess : Session) (jobId aid : Nat) (j : Job)
    (gen : Nat → GenResult) (loads : String → Option PyJson) (a0 : Application)
    (hadmin : sess.userType = some "admin") (haid : sess.adminId = some aid)
    (hjob : findJobOwned db.jobs jobId aid = some j)
    (hmem0 : a0 ∈ appliedApps db.applications jobId)
    (hfail0 : shortlistDecision gen loads a0.id = none)
    (hothers : ∀ a ∈ appliedApps db.applications jobId, a.id ≠ a0.id →
        shortlistDecision gen loads a.id ≠ none)
    (hids : (appliedApps db.applications jobId).Pairwise (fun x y => x.id ≠ y.id)) :
    ((shortlist_candidates db sess jobId gen loads).1 =
        (200, msgBody ("Shortlisting complete for " ++
          toString (appliedApps db.applications jobId).length ++ " applications.")))
    ∧ (a0 ∈ (shortlist_candidates db sess jobId gen loads).2.applications
        ∧ a0.status = "Applied")
    ∧ (∀ a, a ∈ appliedApps db.applications jobId → a.id ≠ a0.id →
        ∀ fs, shortlistDecision gen loads a.id = some (.obj fs) →
          (PyJson.pyTruthy ((PyJson.getField fs "shortlisted").getD .null) = true →
            { a with status := "Shortlisted"
                   , shortlistReason := some ((PyJson.getField fs "reason").getD (.str "")) }
              ∈ (shortlist_candidates db sess jobId gen loads).2.applications)
          ∧ (PyJson.pyTruthy ((PyJson.getField fs "shortlisted").getD .null) = false →
              a ∈ (shortlist_candidates db sess jobId gen loads).2.applications)) := by
  have happs : (appliedApps db.applications jobId).isEmpty = false := by
    rcases h : appliedApps db.applications jobId with _ | ⟨x, xs⟩
    · rw [h] at hmem0
      exact absurd hmem0 (List.not_mem_nil a0)
    · rfl
  have hred : shortlist_candidates db sess jobId gen loads =
      ((200, msgBody ("Shortlisting complete for " ++
          toString (appliedApps db.applications jobId).length ++ " applications.")),
       (appliedApps db.applications jobId).foldl (shortlistApply gen loads) db) := by
    simp [shortlist_candidates, hadmin, haid, hjob, happs]
  rw [hred]
  have hfin := foldl_shortlistApply gen loads (appliedApps db.applications jobId) db
  refine ⟨rfl, ?_, ?_⟩
  · have ha0db : a0 ∈ db.applications := (mem_appliedApps hmem0).1
    have hfix : (appliedApps db.applications jobId).foldl
        (fun y a => appStep gen loads a y) a0 = a0 := by
      apply foldl_appStep_fix
      intro a _
      by_cases hid : a0.id = a.id
      · exact appStep_noDecision (hid ▸ hfail0)
      · exact appStep_ne hid
    refine ⟨?_, (mem_appliedApps hmem0).2.2⟩
    rw [hfin]
    exact hfix ▸ List.mem_map_of_mem _ ha0db
  · intro a hmem hne fs hdec
    rcases List.append_of_mem hmem with ⟨l1, l2, hsplit⟩
    have hpair := hsplit ▸ hids
    rcases List.pairwise_append.1 hpair with ⟨_, p2, p12⟩
    have hl1 : ∀ b ∈ l1, b.id ≠ a.id := by
      intro b hb
      exact p12 b hb a (List.mem_cons_self a l2)
    have hl2 : ∀ b ∈ l2, a.id ≠ b.id := by
      intro b hb
      exact (List.pairwise_cons.1 p2).1 b hb
    have hadb : a ∈ db.applications := (mem_appliedApps hmem).1
    have hfold1 : l1.foldl (fun y b => appStep gen loads b y) a = a := by
      apply foldl_appStep_fix
      intro b hb
      exact appStep_ne (fun h => hl1 b hb h.symm)
    constructor
    · intro htruthy
      have hself : appStep gen loads a a =
          { a with status := "Shortlisted"
                 , shortlistReason := some ((PyJson.getField fs "reason").getD (.str "")) } := by
        unfold appStep
        rw [hdec]
        simp [htruthy]
      have hfold2 : l2.foldl (fun y b => appStep gen loads b y)
          ({ a with status := "Shortlisted"
                  , shortlistReason := some ((PyJson.getField fs "reason").getD (.str "")) }) =
          { a with status := "Shortlisted"
                 , shortlistReason := some ((PyJson.getField fs "reason").getD (.str "")) } := by
        apply foldl_appStep_fix
        intro b hb
        exact appStep_ne (hl2 b hb)
      have hfa : (appliedApps db.applications jobId).foldl
          (fun y b => appStep gen loads b y) a =
          { a with status := "Shortlisted"
                 , shortlistReason := some ((PyJson.getField fs "reason").getD (.str "")) } := by
        rw [hsplit, List.foldl_append, hfold1, List.foldl_cons, hself, hfold2]
      rw [hfin]
      exact hfa ▸ List.mem_map_of_mem _ hadb
    · intro hfalsy
      have hself : appStep gen loads a a = a := by
        unfold appStep
        rw [hdec]
        simp [hfalsy]
      have hfold2 : l2.foldl (fun y b => appStep gen loads b y) a = a := by
        apply foldl_appStep_fix
        intro b hb
        exact appStep_ne (hl2 b hb)
      have hfa : (appliedApps db.applications jobId).foldl
          (fun y b => appStep gen loads b y) a = a := by
        rw [hsplit, List.foldl_append, hfold1, List.foldl_cons, hself, hfold2]
      rw [hfin]
      exact hfa ▸ List.mem_map_of_mem _ hadb

/-- Raw gateway text for a positive shortlist decision. -/
def shortRaw : String := "\x7b\"shortlisted\": true, \"reason\": \"good fit\"\x7d"

/-- The JSON value json.loads yields for `shortRaw`. -/
def shortVal : PyJson := .obj [("shortlisted", .bool true), ("reason", .str "good fit")]

/-- A gateway raising only for application 2. -/
def gen5 : Nat → GenResult := fun i => if i = 2 then .exc else .text shortRaw

/-- A json.loads oracle defined on `shortRaw`. -/
def loads5 : String → Option PyJson := fun s => if s = shortRaw then some shortVal else none

/-- Three Applied applications under job 1. -/
def app5a : Application := ⟨1, 1, 1, "r1", "Applied", none, none, none⟩

/-- Second of the three Applied applications (the failing one). -/
def app5b : Application := ⟨2, 2, 1, "r2", "Applied", none, none, none⟩

/-- Third of the three Applied applications. -/
def app5c : Application := ⟨3, 3, 1, "r3", "Applied", none, none, none⟩

/-- Store with three Applied applications for job 1. -/
def db5 : DB := ⟨[cand1], [job1], [app5a, app5b, app5c]⟩

/-- Claim C5 witness: the batch over three Applied applications completes
with its completion message although the gateway raises for application 2,
and the failing application survives unchanged. -/
theorem C5_shortlist_witness :
    (shortlist_candidates db5 adminSess 1 gen5 loads5).1 =
      (200, msgBody ("Shortlisting complete for " ++
        toString (appliedApps db5.applications 1).length ++ " applications.")) ∧
    app5b ∈ (shortlist_candidates db5 adminSess 1 gen5 loads5).2.applications := by
  have hmem0 : app5b ∈ appliedApps db5.applications 1 :=
    List.mem_cons_of_mem _ (List.mem_cons_self _ _)
  have hoth : ∀ a ∈ appliedApps db5.applications 1, a.id ≠ app5b.id →
      shortlistDecision gen5 loads5 a.id ≠ none := by
    intro a ha hne
    have ha2 : a = app5a ∨ a = app5b ∨ a = app5c := by
      have hm : a ∈ [app5a, app5b, app5c] := ha
      simpa [List.mem_cons] using hm
    rcases ha2 with rfl | rfl | rfl
    · intro h; exact Option.noConfusion h
    · exact absurd rfl hne
    · intro h; exact Option.noConfusion h
  have hids : (appliedApps db5.applications 1).Pairwise (fun x y => x.id ≠ y.id) := by
    show List.Pairwise _ [app5a, app5b, app5c]
    simp [List.pairwise_cons, app5a, app5b, app5c]
  have hmain := C5_shortlist_batch_survives_single_failure db5 adminSess 1 7 job1
    gen5 loads5 app5b rfl rfl rfl hmem0 rfl hoth hids
  exact ⟨hmain.1, hmain.2.1.1⟩
